import Mathlib

/-!
Verification of the Dashgram JavaScript SDK event-delivery pipeline:
the bounded event queue, the batch scheduler, the transport layer and
its error taxonomy, and the SDK facade's initialization contract.

Each definition is a shallow embedding of the corresponding TypeScript
source (`src/core/event-queue.ts`, `src/transport/batch-processor.ts`,
`src/transport/transport.ts`, `src/errors.ts`, `src/core/config.ts`,
`src/index.ts`).  JavaScript arrays of events become Lean lists, class
state becomes explicit records, and fallible operations return
`Except`/`Option` values.
-/

namespace Dashgram

/-! ### Bounded event queue (`src/core/event-queue.ts`)

```ts
enqueue(event) { this.queue.push(event);
  if (this.queue.length > this.maxSize) { this.queue.shift(); } }
flush() { const events = [...this.queue]; this.queue = []; return events; }
```
-/

structure EventQueue (α : Type) where
  queue : List α
  maxSize : ℕ

namespace EventQueue

/-- `new EventQueue(maxSize)` — starts empty. -/
def fresh (α : Type) (maxSize : ℕ) : EventQueue α :=
  { queue := [], maxSize := maxSize }

/-- `enqueue`: push at the tail; if the length now exceeds `maxSize`,
shift the head (drop the oldest record). -/
def enqueue (q : EventQueue α) (e : α) : EventQueue α :=
  let pushed := q.queue ++ [e]
  if pushed.length > q.maxSize then { q with queue := pushed.tail }
  else { q with queue := pushed }

/-- `flush`: return a copy of the contents and reset the buffer. -/
def flush (q : EventQueue α) : List α × EventQueue α :=
  (q.queue, { q with queue := [] })

/-- `peek`: contents without mutating. -/
def peek (q : EventQueue α) : List α := q.queue

/-- `size`. -/
def size (q : EventQueue α) : ℕ := q.queue.length

/-- `isEmpty`. -/
def isEmpty (q : EventQueue α) : Bool := q.queue.length == 0

/-- `clear`. -/
def clear (q : EventQueue α) : EventQueue α := { q with queue := [] }

/-- A sequence of `enqueue` calls, oldest first. -/
def enqueueAll (q : EventQueue α) (es : List α) : EventQueue α :=
  es.foldl enqueue q

theorem enqueue_maxSize (q : EventQueue α) (e : α) :
    (q.enqueue e).maxSize = q.maxSize := by
  unfold enqueue
  dsimp only
  split <;> rfl

theorem enqueueAll_maxSize (es : List α) :
    ∀ q : EventQueue α, (q.enqueueAll es).maxSize = q.maxSize := by
  induction es with
  | nil => intro q; rfl
  | cons e es ih =>
    intro q
    show ((q.enqueue e).enqueueAll es).maxSize = _
    rw [ih, enqueue_maxSize]

/-- After any run of `enqueue` calls starting from a buffer within
capacity, the buffer holds exactly the last `maxSize`-bounded suffix of
everything ever enqueued. -/
theorem enqueueAll_queue (es : List α) :
    ∀ (u : List α) (N : ℕ), u.length ≤ N →
      (enqueueAll ⟨u, N⟩ es).queue = (u ++ es).drop (u.length + es.length - N) := by
  induction es with
  | nil =>
    intro u N h
    simp [enqueueAll, Nat.sub_eq_zero_of_le h]
  | cons e es ih =>
    intro u N h
    show (enqueueAll (enqueue ⟨u, N⟩ e) es).queue = _
    have hue : (u ++ [e]).length = u.length + 1 := by
      rw [List.length_append, List.length_singleton]
    by_cases hov : u.length + 1 > N
    · have hN : u.length = N := Nat.le_antisymm h (by omega)
      have henq : enqueue ⟨u, N⟩ e = ⟨(u ++ [e]).tail, N⟩ := by
        simp [enqueue, hov]
      rw [henq]
      cases u with
      | nil =>
        have hN0 : N = 0 := by simpa using hN.symm
        subst hN0
        simp only [List.nil_append, List.tail_cons]
        rw [ih ([] : List α) 0 (by simp)]
        simp [List.drop_length]
      | cons a u' =>
        have hlen' : u'.length + 1 = N := by simpa using hN
        simp only [List.cons_append, List.tail_cons]
        have hidx : (a :: u').length + (e :: es).length - N = es.length + 1 := by
          simp only [List.length_cons]
          omega
        rw [hidx, List.drop_succ_cons]
        have hl2 : (u' ++ [e]).length ≤ N := by
          rw [List.length_append, List.length_singleton]
          omega
        rw [ih (u' ++ [e]) N hl2]
        have h1 : (u' ++ [e]) ++ es = u' ++ e :: es := by simp
        have h4 : (u' ++ [e]).length + es.length - N = es.length := by
          rw [List.length_append, List.length_singleton]
          omega
        rw [h1, h4]
    · have henq : enqueue ⟨u, N⟩ e = ⟨u ++ [e], N⟩ := by
        simp [enqueue, hov]
      rw [henq]
      have hl2 : (u ++ [e]).length ≤ N := by
        rw [hue]
        omega
      rw [ih (u ++ [e]) N hl2]
      have h1 : (u ++ [e]) ++ es = u ++ e :: es := by simp
      have h2 : (u ++ [e]).length + es.length - N = u.length + (e :: es).length - N := by
        rw [hue, List.length_cons]
        omega
      rw [h1, h2]

end EventQueue

/-- C1: starting from a fresh `EventQueue` of capacity `N`, after any
sequence of `k` `enqueue` calls (which never raise), `drain`/`flush`
returns exactly the last `min k N` enqueued records in their original
enqueue order (`es.drop (k - N)`), and leaves the queue empty. -/
theorem c1_queue_drain_last_min {α : Type} (N : ℕ) (es : List α) :
    ((EventQueue.fresh α N).enqueueAll es).flush.1 = es.drop (es.length - N) ∧
    ((EventQueue.fresh α N).enqueueAll es).flush.1.length = min es.length N ∧
    ((EventQueue.fresh α N).enqueueAll es).flush.2.queue = [] := by
  have h := EventQueue.enqueueAll_queue es ([] : List α) N (by simp)
  have hq : (EventQueue.fresh α N).enqueueAll es = EventQueue.enqueueAll ⟨[], N⟩ es := rfl
  refine ⟨?_, ?_, ?_⟩
  · rw [EventQueue.flush, hq, h]
    simp
  · rw [EventQueue.flush, hq, h]
    simp only [List.nil_append, List.length_nil, Nat.zero_add, List.length_drop]
    omega
  · rw [EventQueue.flush]

/-! ### Batch processor (`src/transport/batch-processor.ts`)

```ts
constructor(config, transport) { ... this.queue = new EventQueue(200); }
addEvent(event) { this.queue.enqueue(event);
  const batchSize = this.config.get('batchSize');
  if (this.queue.size() >= batchSize) { this.flush(); } }
flush() { const events = this.queue.flush();
  if (events.length > 0) { this.transport.send(events); } }
```

The `sent` and `dropped` fields are ghost observation logs: `sent`
records every batch handed to the transport delivery primitive, and
`dropped` records every record the queue's drop-oldest overflow policy
shifted out.  Neither influences control flow.
-/

structure BatchProcessor (α : Type) where
  batchSize : ℕ
  queue : EventQueue α
  sent : List (List α)
  dropped : List α

namespace BatchProcessor

/-- `new BatchProcessor(config, transport)`: fresh queue of capacity 200. -/
def init (α : Type) (batchSize : ℕ) : BatchProcessor α :=
  { batchSize := batchSize, queue := EventQueue.fresh α 200, sent := [], dropped := [] }

/-- `flush()`: drain the queue; hand the batch to `transport.send` only
if it is non-empty (recorded in the ghost `sent` log). -/
def flush (p : BatchProcessor α) : BatchProcessor α :=
  let drained := p.queue.flush
  if drained.1.length > 0 then
    { p with queue := drained.2, sent := p.sent ++ [drained.1] }
  else
    { p with queue := drained.2 }

/-- Ghost observation of `EventQueue.enqueue`'s overflow: the record
`shift()` removes — the head of the pushed buffer — iff it overflows. -/
def overflowOf (q : EventQueue α) (e : α) : List α :=
  if (q.queue ++ [e]).length > q.maxSize then (q.queue ++ [e]).take 1 else []

/-- `addEvent(event)`: enqueue, then eagerly flush once the configured
batch size is reached. -/
def addEvent (p : BatchProcessor α) (e : α) : BatchProcessor α :=
  let p' := { p with queue := p.queue.enqueue e,
                     dropped := p.dropped ++ overflowOf p.queue e }
  if p'.queue.size ≥ p.batchSize then p'.flush else p'

/-- A scheduler operation: a producer call (`addEvent`), or a flush from
any trigger (periodic timer, explicit call, or the unload-path drain —
all of them run the same drain-then-send-if-non-empty body). -/
inductive Op (α : Type) where
  | add (e : α)
  | flush

def step (p : BatchProcessor α) : Op α → BatchProcessor α
  | .add e => p.addEvent e
  | .flush => p.flush

def run (p : BatchProcessor α) (ops : List (Op α)) : BatchProcessor α :=
  ops.foldl step p

/-- The records handed to `addEvent`, in call order. -/
def addedLog (ops : List (Op α)) : List α :=
  ops.filterMap fun op => match op with | .add e => some e | .flush => none

/-- Everything the pipeline has accounted for: overflow-dropped records,
records handed to transport, and records still queued. -/
def accounted (p : BatchProcessor α) : List α :=
  p.dropped ++ p.sent.flatten ++ p.queue.queue

theorem perm_middle_swap (A B C D : List α) :
    (A ++ B ++ (C ++ D)).Perm (A ++ C ++ (B ++ D)) := by
  have h1 : A ++ B ++ (C ++ D) = A ++ ((B ++ C) ++ D) := by
    simp [List.append_assoc]
  have h2 : A ++ C ++ (B ++ D) = A ++ ((C ++ B) ++ D) := by
    simp [List.append_assoc]
  rw [h1, h2]
  exact List.Perm.append_left A (List.Perm.append_right D List.perm_append_comm)

theorem flush_accounted (p : BatchProcessor α) :
    (p.flush).accounted = p.accounted := by
  unfold flush accounted EventQueue.flush
  dsimp only
  split
  next h => simp
  next h =>
    have h0 : p.queue.queue = [] := by
      have hz : p.queue.queue.length = 0 := by omega
      exact List.length_eq_zero.mp hz
    simp [h0]

theorem addEvent_accounted (p : BatchProcessor α) (e : α) :
    (p.addEvent e).accounted.Perm (p.accounted ++ [e]) := by
  have hcore :
      (({ p with queue := p.queue.enqueue e,
                 dropped := p.dropped ++ overflowOf p.queue e } :
          BatchProcessor α)).accounted.Perm (p.accounted ++ [e]) := by
    unfold accounted EventQueue.enqueue overflowOf
    dsimp only
    by_cases hov : (p.queue.queue ++ [e]).length > p.queue.maxSize
    · simp only [if_pos hov]
      have hsplit : (p.queue.queue ++ [e]).take 1 ++ (p.queue.queue ++ [e]).tail
          = p.queue.queue ++ [e] := by
        rw [← List.drop_one, List.take_append_drop]
      have hgoal1 : p.dropped ++ (p.queue.queue ++ [e]).take 1 ++ p.sent.flatten
          ++ (p.queue.queue ++ [e]).tail
          = p.dropped ++ (p.queue.queue ++ [e]).take 1
            ++ (p.sent.flatten ++ (p.queue.queue ++ [e]).tail) := by
        simp [List.append_assoc]
      have hgoal2 : p.dropped ++ p.sent.flatten ++ p.queue.queue ++ [e]
          = p.dropped ++ p.sent.flatten
            ++ ((p.queue.queue ++ [e]).take 1 ++ (p.queue.queue ++ [e]).tail) := by
        rw [hsplit]
        simp [List.append_assoc]
      rw [hgoal1, hgoal2]
      exact perm_middle_swap _ _ _ _
    · simp only [if_neg hov]
      simp [List.append_assoc]
  unfold addEvent
  dsimp only
  by_cases hsz : (p.queue.enqueue e).size ≥ p.batchSize
  · rw [if_pos hsz, flush_accounted]
    exact hcore
  · rw [if_neg hsz]
    exact hcore

theorem step_accounted (p : BatchProcessor α) (op : Op α) :
    (p.step op).accounted.Perm (p.accounted ++ addedLog [op]) := by
  cases op with
  | add e => exact addEvent_accounted p e
  | flush =>
    show (p.flush).accounted.Perm _
    rw [show addedLog ([Op.flush] : List (Op α)) = [] from rfl]
    rw [List.append_nil, flush_accounted]

theorem run_accounted (ops : List (Op α)) :
    ∀ p : BatchProcessor α, (p.run ops).accounted.Perm (p.accounted ++ addedLog ops) := by
  induction ops with
  | nil => intro p; simp [run, addedLog]
  | cons op ops ih =>
    intro p
    have h1 : (p.run (op :: ops)) = (p.step op).run ops := rfl
    rw [h1]
    refine (ih (p.step op)).trans ?_
    have h2 := step_accounted p op
    refine (List.Perm.append_right (addedLog ops) h2).trans ?_
    have h3 : addedLog (op :: ops) = addedLog [op] ++ addedLog ops := by
      cases op <;> simp [addedLog]
    rw [h3, List.append_assoc]

/-- A sequence of `addEvent` calls. -/
def addAll (p : BatchProcessor α) (es : List α) : BatchProcessor α :=
  es.foldl addEvent p

/-- Below the threshold and within capacity, `addEvent` just appends. -/
theorem addEvent_below (B : ℕ) (u : List α) (e : α)
    (hcap : u.length + 1 ≤ 200) (hth : u.length + 1 < B) :
    addEvent ⟨B, ⟨u, 200⟩, [], []⟩ e = ⟨B, ⟨u ++ [e], 200⟩, [], []⟩ := by
  have hov : ¬ (u ++ [e]).length > 200 := by
    rw [List.length_append, List.length_singleton]
    omega
  unfold addEvent overflowOf EventQueue.enqueue
  dsimp only
  rw [if_neg hov, if_neg hov]
  have hsz : ¬ (EventQueue.size (α := α) ⟨u ++ [e], 200⟩ ≥ B) := by
    unfold EventQueue.size
    dsimp only
    rw [List.length_append, List.length_singleton]
    omega
  rw [if_neg hsz]
  simp

/-- Strictly below the threshold, a run of `addEvent` calls only queues. -/
theorem addAll_below (B : ℕ) (l : List α) :
    ∀ u : List α, u.length + l.length < B → u.length + l.length ≤ 200 →
      addAll ⟨B, ⟨u, 200⟩, [], []⟩ l = ⟨B, ⟨u ++ l, 200⟩, [], []⟩ := by
  induction l with
  | nil => intro u _ _; simp [addAll]
  | cons e l ih =>
    intro u hth hcap
    show addAll (addEvent ⟨B, ⟨u, 200⟩, [], []⟩ e) l = _
    rw [addEvent_below B u e (by simp at hcap ⊢; omega) (by simp at hth ⊢; omega)]
    rw [ih (u ++ [e]) (by simp at hth ⊢; omega) (by simp at hcap ⊢; omega)]
    simp

/-- A run of `addEvent` calls that exactly reaches the threshold on its
last call flushes once: the whole batch is handed over and the queue is
left empty. -/
theorem addAll_reach (B : ℕ) (l : List α) :
    ∀ u : List α, l ≠ [] → u.length + l.length = B → B ≤ 200 →
      addAll ⟨B, ⟨u, 200⟩, [], []⟩ l = ⟨B, ⟨[], 200⟩, [u ++ l], []⟩ := by
  induction l with
  | nil => intro u hne _ _; exact absurd rfl hne
  | cons e l ih =>
    intro u _ hB hcap
    show addAll (addEvent ⟨B, ⟨u, 200⟩, [], []⟩ e) l = _
    cases l with
    | nil =>
      have hov : ¬ (u ++ [e]).length > 200 := by
        rw [List.length_append, List.length_singleton]
        simp at hB
        omega
      unfold addAll addEvent overflowOf EventQueue.enqueue
      dsimp only
      rw [if_neg hov, if_neg hov]
      have hsz : EventQueue.size (α := α) ⟨u ++ [e], 200⟩ ≥ B := by
        unfold EventQueue.size
        dsimp only
        rw [List.length_append, List.length_singleton]
        simp at hB
        omega
      rw [if_pos hsz]
      unfold flush EventQueue.flush
      dsimp only
      have hne' : (u ++ [e]).length > 0 := by
        rw [List.length_append, List.length_singleton]
        omega
      rw [if_pos hne']
      simp
    | cons e' l' =>
      rw [addEvent_below B u e (by simp at hB ⊢; omega) (by simp at hB ⊢; omega)]
      rw [ih (u ++ [e]) (by simp) (by simp at hB ⊢; omega) hcap]
      simp

end BatchProcessor

/-- C2: for any interleaving of producer calls and flushes
(threshold-triggered inside `addEvent`, timer-triggered, or
unload-triggered — all run the same drain body), provided the enqueued
records are pairwise distinct: no record appears in two drained batches
(the batches handed to the transport are pairwise disjoint and
duplicate-free), and every enqueued record is accounted for — it is
either in a batch handed to a transport delivery primitive, still in
the queue, or removed by the bounded-queue drop-oldest overflow policy
(and conversely nothing else is ever handed over). -/
theorem c2_no_double_drain_no_loss {α : Type} (B : ℕ)
    (ops : List (BatchProcessor.Op α))
    (h : (BatchProcessor.addedLog ops).Nodup) :
    ((BatchProcessor.init α B).run ops).sent.flatten.Nodup ∧
    List.Pairwise List.Disjoint ((BatchProcessor.init α B).run ops).sent ∧
    (∀ e, e ∈ BatchProcessor.addedLog ops ↔
      e ∈ ((BatchProcessor.init α B).run ops).sent.flatten ∨
      e ∈ ((BatchProcessor.init α B).run ops).queue.queue ∨
      e ∈ ((BatchProcessor.init α B).run ops).dropped) := by
  have hperm := BatchProcessor.run_accounted ops (BatchProcessor.init α B)
  have hinit : (BatchProcessor.init α B).accounted = [] := rfl
  rw [hinit, List.nil_append] at hperm
  have hnodup : ((BatchProcessor.init α B).run ops).accounted.Nodup :=
    hperm.nodup_iff.mpr h
  set p := (BatchProcessor.init α B).run ops with hp
  have hsub : p.sent.flatten.Sublist p.accounted := by
    unfold BatchProcessor.accounted
    exact ((List.sublist_append_right p.dropped p.sent.flatten).trans
      (List.sublist_append_left (p.dropped ++ p.sent.flatten) p.queue.queue))
  have hflat : p.sent.flatten.Nodup := hnodup.sublist hsub
  refine ⟨hflat, (List.nodup_flatten.mp hflat).2, ?_⟩
  intro e
  have hm := hperm.mem_iff (a := e)
  unfold BatchProcessor.accounted at hm
  simp only [List.mem_append] at hm
  tauto

/-- Concrete scenario exercising C2. -/
def c2ops : List (BatchProcessor.Op ℕ) :=
  [.add 0, .add 1, .flush, .add 2, .add 3, .add 4, .flush, .add 5]

theorem c2_no_double_drain_no_loss_witness :
    (BatchProcessor.addedLog c2ops).Nodup ∧
    (((BatchProcessor.init ℕ 3).run c2ops).sent.flatten.Nodup ∧
     List.Pairwise List.Disjoint ((BatchProcessor.init ℕ 3).run c2ops).sent ∧
     (∀ e, e ∈ BatchProcessor.addedLog c2ops ↔
       e ∈ ((BatchProcessor.init ℕ 3).run c2ops).sent.flatten ∨
       e ∈ ((BatchProcessor.init ℕ 3).run c2ops).queue.queue ∨
       e ∈ ((BatchProcessor.init ℕ 3).run c2ops).dropped)) :=
  ⟨by decide, c2_no_double_drain_no_loss 3 c2ops (by decide)⟩

/-- C7 (amended: for a batch-size threshold within the hard-coded queue
capacity 200): from an empty queue, `addEvent` called `batchSize` times
triggers exactly one eager flush, at the moment the `batchSize`-th
record is inserted and not before (every strictly shorter prefix of
calls hands nothing to the transport, the full run hands over exactly
the one full batch and empties the queue); and any flush that drains
zero records never invokes the transport send primitive. -/
theorem c7_threshold_single_flush {α : Type} (B : ℕ) (es : List α)
    (hB1 : 1 ≤ B) (hB2 : B ≤ 200) (hlen : es.length = B) :
    (∀ k, k < B → ((BatchProcessor.init α B).addAll (es.take k)).sent = []) ∧
    ((BatchProcessor.init α B).addAll es).sent = [es] ∧
    ((BatchProcessor.init α B).addAll es).queue.queue = [] ∧
    (∀ p : BatchProcessor α, p.queue.queue = [] → p.flush.sent = p.sent) := by
  refine ⟨?_, ?_, ?_, ?_⟩
  · intro k hk
    have htk : (es.take k).length = k := by
      rw [List.length_take]
      omega
    have h := BatchProcessor.addAll_below B (es.take k) ([] : List α)
      (by rw [htk]; simpa using hk) (by rw [htk]; simp; omega)
    rw [show (BatchProcessor.init α B) = ⟨B, ⟨[], 200⟩, [], []⟩ from rfl, h]
  · have hne : es ≠ [] := by
      intro hcon
      rw [hcon] at hlen
      simp at hlen
      omega
    have h := BatchProcessor.addAll_reach B es ([] : List α) hne
      (by simpa using hlen) hB2
    rw [show (BatchProcessor.init α B) = ⟨B, ⟨[], 200⟩, [], []⟩ from rfl, h]
    simp
  · have hne : es ≠ [] := by
      intro hcon
      rw [hcon] at hlen
      simp at hlen
      omega
    have h := BatchProcessor.addAll_reach B es ([] : List α) hne
      (by simpa using hlen) hB2
    rw [show (BatchProcessor.init α B) = ⟨B, ⟨[], 200⟩, [], []⟩ from rfl, h]
  · intro p hq
    unfold BatchProcessor.flush EventQueue.flush
    dsimp only
    rw [if_neg (by rw [hq]; simp)]

theorem c7_threshold_single_flush_witness :
    (1 ≤ 2 ∧ 2 ≤ 200 ∧ ([10, 20] : List ℕ).length = 2) ∧
    ((∀ k, k < 2 →
        ((BatchProcessor.init ℕ 2).addAll (([10, 20] : List ℕ).take k)).sent = []) ∧
     ((BatchProcessor.init ℕ 2).addAll [10, 20]).sent = [[10, 20]] ∧
     ((BatchProcessor.init ℕ 2).addAll [10, 20]).queue.queue = [] ∧
     (∀ p : BatchProcessor ℕ, p.queue.queue = [] → p.flush.sent = p.sent)) :=
  ⟨⟨by decide, by decide, by decide⟩,
    c7_threshold_single_flush 2 [10, 20] (by decide) (by decide) (by decide)⟩

/-! ### Error taxonomy (`src/errors.ts`) -/

/-- The SDK's typed error hierarchy: `DashgramError` and its four
subclasses.  `apiError` carries the status code and detail string;
`networkError` stores the message of the original (wrapped) error. -/
inductive DashgramError where
  | base (message : String)
  | invalidCredentials (message : String)
  | apiError (statusCode : ℕ) (details : String)
  | networkError (originalMessage : String)
  | configurationError (message : String)
deriving DecidableEq

/-- The `message` property each constructor installs via `super(...)`. -/
def DashgramError.message : DashgramError → String
  | .base m => m
  | .invalidCredentials m => m
  | .apiError s d => s!"Dashgram API error ({s}): {d}"
  | .networkError m => s!"Network error: {m}"
  | .configurationError m => m

/-- A JavaScript `Error` object: one of the SDK's typed errors, or any
other `Error` identified by its message. -/
inductive ErrObj where
  | dashgram (e : DashgramError)
  | plain (message : String)
deriving DecidableEq

def ErrObj.message : ErrObj → String
  | .dashgram e => e.message
  | .plain m => m

/-- A JavaScript thrown value: an `Error` object (`instanceof Error`
holds exactly for this constructor) or any non-`Error` value, kept as
its `String(...)` representation. -/
inductive Thrown where
  | errObj (e : ErrObj)
  | nonError (stringRepr : String)
deriving DecidableEq

/-! ### Transport (`src/transport/transport.ts`)

`fetch`, `response.json()`, `navigator.sendBeacon` and the user's
`onError` callback are host primitives; their behaviour enters the model
as explicit inputs.  The tracked `isOnline` flag is likewise an input
(it is owned by `Transport` and toggled by host online/offline events).
-/

/-- Body parsed from an error response: the optional `details` and
`message` fields the code inspects. -/
structure ErrorBody where
  details : Option String
  message : Option String
deriving DecidableEq

/-- An HTTP response as the code observes it.  `jsonBody = none` models
`response.json()` rejecting (unparseable body). -/
structure HttpResponse where
  status : ℕ
  statusText : String
  jsonBody : Option ErrorBody
deriving DecidableEq

/-- `response.ok`: status in the 2xx range. -/
def HttpResponse.ok (r : HttpResponse) : Bool :=
  decide (200 ≤ r.status ∧ r.status ≤ 299)

/-- Outcome of `await fetch(...)`: a response, or a rejection with some
thrown value. -/
inductive FetchResult where
  | response (r : HttpResponse)
  | reject (t : Thrown)
deriving DecidableEq

/-- `safeStringify` (`src/utils/helpers.ts`): `JSON.stringify` in a
try/catch; a serialization failure (`none`) is swallowed and the string
`"\x7b\x7d"` is returned instead. -/
def safeStringify (stringifyResult : Option String) : String :=
  match stringifyResult with
  | some s => s
  | none => "\x7b\x7d"

/-- JavaScript `a || b` where `a` is an optional string field: both an
absent field and the empty string are falsy. -/
def jsOrString (a : Option String) (b : String) : String :=
  match a with
  | some s => if s = "" then b else s
  | none => b

/-- `let details = response.statusText; try { const errorData = await
response.json(); details = errorData.details || errorData.message ||
details } catch \x7b\x7d` -/
def errorDetails (r : HttpResponse) : String :=
  match r.jsonBody with
  | none => r.statusText
  | some body => jsOrString body.details (jsOrString body.message r.statusText)

/-- The `try` block of `Transport.sendRequest` after the fetch settles:
403 throws `InvalidCredentialsError`, any other non-ok status throws
`DashgramAPIError` with the extracted detail, and a fetch rejection
re-raises its thrown value. -/
def sendRequestTry (fr : FetchResult) : Except Thrown Unit :=
  match fr with
  | .reject t => .error t
  | .response r =>
    if r.status = 403 then
      .error (.errObj (.dashgram (.invalidCredentials "Invalid projectId or apiKey")))
    else if r.ok = false then
      .error (.errObj (.dashgram (.apiError r.status (errorDetails r))))
    else
      .ok ()

/-- The `catch` of `sendRequest`: re-throw the typed credential/API
errors; wrap any other `Error` into `NetworkError(error)`; wrap a
non-`Error` value into `NetworkError(new Error(String(error)))`. -/
def classifySendError (t : Thrown) : DashgramError :=
  match t with
  | .errObj (.dashgram (.invalidCredentials m)) => .invalidCredentials m
  | .errObj (.dashgram (.apiError s d)) => .apiError s d
  | .errObj e => .networkError e.message
  | .nonError s => .networkError s

/-- One request attempt given the settled fetch outcome. -/
def sendRequestOutcome (fr : FetchResult) : Except DashgramError Unit :=
  match sendRequestTry fr with
  | .ok () => .ok ()
  | .error t => .error (classifySendError t)

/-- `Transport.sendRequest`: serialize the payload with `safeStringify`
(its failure only substitutes the empty-object body), issue the fetch
(modelled as the host behaviour `fetch : body → FetchResult`), then
handle the outcome. -/
def Transport.sendRequest (stringifyResult : Option String)
    (fetch : String → FetchResult) : Except DashgramError Unit :=
  sendRequestOutcome (fetch (safeStringify stringifyResult))

/-- The slice of the `Config` object `Transport` consults, plus the
optional user `onError` callback.  The callback's behaviour is a
function from the received error to `none` (returns normally) or
`some t` (throws `t`). -/
structure TransportConfig where
  disabled : Bool
  debug : Bool
  onError : Option (DashgramError → Option Thrown)

/-- Observable outcome of one `Transport.send` call. -/
structure SendResult where
  /-- The exception escaping `send`, if any (`none` = the promise resolves). -/
  raised : Option Thrown
  /-- Whether an outbound network request was issued. -/
  requestIssued : Bool
  /-- Invocations of the configured error callback, in order, with the
  error value each received. -/
  callbackCalls : List DashgramError
  /-- Thrown values of the error callback that were caught and only
  logged by the `catch (handlerError)` guard. -/
  handlerErrorsLogged : List Thrown
deriving DecidableEq

/-- The `catch` block of `Transport.send`: after logging, dispatch the
thrown value to the user's callback when one is configured.  The three
typed errors are passed as-is; any other `Error` is wrapped into
`NetworkError` first; a non-`Error` value triggers no call.  An
exception thrown by the callback itself is caught and only logged. -/
def handleSendFailure (onError : Option (DashgramError → Option Thrown))
    (error : Thrown) : List DashgramError × List Thrown :=
  match onError with
  | none => ([], [])
  | some cb =>
    let callWith : DashgramError → List DashgramError × List Thrown := fun e =>
      match cb e with
      | none => ([e], [])
      | some t => ([e], [t])
    match error with
    | .errObj (.dashgram (.invalidCredentials m)) => callWith (.invalidCredentials m)
    | .errObj (.dashgram (.apiError s d)) => callWith (.apiError s d)
    | .errObj (.dashgram (.networkError m)) => callWith (.networkError m)
    | .errObj e => callWith (.networkError e.message)
    | .nonError _ => ([], [])

/-- `Transport.send`: empty batch, disabled SDK, or offline state are
immediate successful no-ops; otherwise one request is attempted and any
failure is absorbed by the catch block (`send` itself never rejects). -/
def Transport.send {ε : Type} (cfg : TransportConfig) (isOnline : Bool)
    (events : List ε) (stringifyResult : Option String)
    (fetch : String → FetchResult) : SendResult :=
  if events.length = 0 then
    { raised := none, requestIssued := false, callbackCalls := [], handlerErrorsLogged := [] }
  else if cfg.disabled then
    { raised := none, requestIssued := false, callbackCalls := [], handlerErrorsLogged := [] }
  else if isOnline = false then
    { raised := none, requestIssued := false, callbackCalls := [], handlerErrorsLogged := [] }
  else
    match Transport.sendRequest stringifyResult fetch with
    | .ok () =>
      { raised := none, requestIssued := true, callbackCalls := [], handlerErrorsLogged := [] }
    | .error err =>
      let handled := handleSendFailure cfg.onError (.errObj (.dashgram err))
      { raised := none, requestIssued := true,
        callbackCalls := handled.1, handlerErrorsLogged := handled.2 }

/-- Observable outcome of one `Transport.sendBeacon` call.  `sendBeacon`
never raises: the model is a total function into this record. -/
structure BeaconResult where
  returned : Bool
  attempted : Bool
deriving DecidableEq

/-- `Transport.sendBeacon`: empty batch or disabled SDK return `true`
with no attempt; a missing beacon capability returns `false` with no
attempt and no fallback; otherwise the platform primitive's boolean
(`primitiveResult`) is returned as-is.  The tracked `isOnline` state is
a parameter only to make its irrelevance provable: the code never
consults it on this path. -/
def Transport.sendBeacon {ε : Type} (cfg : TransportConfig) (isOnline : Bool)
    (events : List ε) (beaconAvailable : Bool) (primitiveResult : Bool) :
    BeaconResult :=
  if events.length = 0 then { returned := true, attempted := false }
  else if cfg.disabled then { returned := true, attempted := false }
  else if beaconAvailable = false then { returned := false, attempted := false }
  else { returned := primitiveResult, attempted := true }

/-- Typed-error kinds a transport attempt can surface. -/
def DashgramError.isTransportTyped : DashgramError → Bool
  | .invalidCredentials _ => true
  | .apiError _ _ => true
  | .networkError _ => true
  | _ => false

theorem classifySendError_typed (t : Thrown) :
    (classifySendError t).isTransportTyped = true := by
  cases t with
  | errObj e =>
    cases e with
    | dashgram d => cases d <;> rfl
    | plain m => rfl
  | nonError s => rfl

theorem sendRequest_error_typed (st : Option String) (fetch : String → FetchResult)
    (err : DashgramError) (h : Transport.sendRequest st fetch = .error err) :
    err.isTransportTyped = true := by
  unfold Transport.sendRequest sendRequestOutcome at h
  cases htry : sendRequestTry (fetch (safeStringify st)) with
  | ok u =>
    rw [htry] at h
    cases u
    exact absurd h (by simp)
  | error t =>
    rw [htry] at h
    have heq : classifySendError t = err := by
      injection h
    rw [← heq]
    exact classifySendError_typed t

theorem handleSendFailure_typed (cb : DashgramError → Option Thrown)
    (err : DashgramError) (h : err.isTransportTyped = true) :
    handleSendFailure (some cb) (.errObj (.dashgram err)) = ([err], (cb err).toList) := by
  cases err with
  | invalidCredentials m =>
    show (match cb (DashgramError.invalidCredentials m) with
          | none => ([DashgramError.invalidCredentials m], [])
          | some t => ([DashgramError.invalidCredentials m], [t])) = _
    cases cb (DashgramError.invalidCredentials m) <;> rfl
  | apiError s d =>
    show (match cb (DashgramError.apiError s d) with
          | none => ([DashgramError.apiError s d], [])
          | some t => ([DashgramError.apiError s d], [t])) = _
    cases cb (DashgramError.apiError s d) <;> rfl
  | networkError m =>
    show (match cb (DashgramError.networkError m) with
          | none => ([DashgramError.networkError m], [])
          | some t => ([DashgramError.networkError m], [t])) = _
    cases cb (DashgramError.networkError m) <;> rfl
  | base m => exact absurd h (by simp [DashgramError.isTransportTyped])
  | configurationError m => exact absurd h (by simp [DashgramError.isTransportTyped])

/-- C3: `Transport.send` is an immediate no-op success — it resolves, no
network request is issued, no callback fires, nothing is raised — when
the batch is empty, when the SDK is configured disabled, or when the
tracked connectivity state is offline. -/
theorem c3_send_noop_cases {ε : Type} (cfg : TransportConfig) (isOnline : Bool)
    (events : List ε) (st : Option String) (fetch : String → FetchResult)
    (h : events = [] ∨ cfg.disabled = true ∨ isOnline = false) :
    Transport.send cfg isOnline events st fetch =
      { raised := none, requestIssued := false, callbackCalls := [],
        handlerErrorsLogged := [] } := by
  unfold Transport.send
  by_cases h0 : events.length = 0
  · rw [if_pos h0]
  · rw [if_neg h0]
    have hd : cfg.disabled = true ∨ isOnline = false := by
      rcases h with h | h | h
      · exact absurd (by rw [h]; rfl) h0
      · exact .inl h
      · exact .inr h
    by_cases h1 : cfg.disabled = true
    · rw [if_pos h1]
    · rw [if_neg h1, if_pos (hd.resolve_left h1)]

/-- A transport configuration with no error callback. -/
def plainConfig : TransportConfig :=
  { disabled := false, debug := false, onError := none }

theorem c3_send_noop_cases_witness :
    (([7] : List ℕ) = [] ∨ plainConfig.disabled = true ∨ false = false) ∧
    Transport.send plainConfig false ([7] : List ℕ) none
        (fun _ => .response ⟨200, "OK", none⟩) =
      { raised := none, requestIssued := false, callbackCalls := [],
        handlerErrorsLogged := [] } :=
  ⟨.inr (.inr rfl),
   c3_send_noop_cases plainConfig false [7] none
     (fun _ => .response ⟨200, "OK", none⟩) (.inr (.inr rfl))⟩

/-- C4: `sendBeacon` returns `true` immediately with no attempt on an
empty batch or a disabled SDK; it never consults the connectivity state
(the result is invariant in it); a missing beacon capability returns
`false` immediately with no attempt and no fallback to `send`; otherwise
the platform primitive's boolean is returned as-is (and the function is
total — it never raises). -/
theorem c4_beacon_contract {ε : Type} (cfg : TransportConfig) (b b' : Bool)
    (events : List ε) (avail r : Bool) :
    (Transport.sendBeacon cfg b ([] : List ε) avail r =
      { returned := true, attempted := false }) ∧
    (cfg.disabled = true → Transport.sendBeacon cfg b events avail r =
      { returned := true, attempted := false }) ∧
    (events ≠ [] → cfg.disabled = false →
      Transport.sendBeacon cfg b events false r =
        { returned := false, attempted := false }) ∧
    (events ≠ [] → cfg.disabled = false →
      Transport.sendBeacon cfg b events true r =
        { returned := r, attempted := true }) ∧
    (Transport.sendBeacon cfg b events avail r =
      Transport.sendBeacon cfg b' events avail r) := by
  refine ⟨rfl, ?_, ?_, ?_, rfl⟩
  · intro hd
    unfold Transport.sendBeacon
    by_cases h0 : events.length = 0
    · rw [if_pos h0]
    · rw [if_neg h0, if_pos hd]
  · intro hne hd
    unfold Transport.sendBeacon
    rw [if_neg (fun hc => hne (List.length_eq_zero.mp hc)), if_neg (by simp [hd]),
      if_pos rfl]
  · intro hne hd
    unfold Transport.sendBeacon
    rw [if_neg (fun hc => hne (List.length_eq_zero.mp hc)), if_neg (by simp [hd]),
      if_neg (by simp)]

theorem c4_beacon_contract_witness :
    Transport.sendBeacon plainConfig true ([1] : List ℕ) false true =
      { returned := false, attempted := false } ∧
    Transport.sendBeacon plainConfig false ([1] : List ℕ) true false =
      { returned := false, attempted := true } :=
  ⟨(c4_beacon_contract plainConfig true true [1] false true).2.2.1 (by decide) rfl,
   (c4_beacon_contract plainConfig false false [1] true false).2.2.2.1 (by decide) rfl⟩

/-- C5: on a failed attempt with a configured error callback, the
callback is invoked exactly once with the already-typed error (which is
always one of the three transport kinds; the handler wraps any
unrecognized `Error` into `NetworkError` first); whatever the callback
throws is caught and only logged, and `send` still resolves. -/
theorem c5_error_callback {ε : Type} (cfg : TransportConfig) (isOnline : Bool)
    (events : List ε) (st : Option String) (fetch : String → FetchResult)
    (cb : DashgramError → Option Thrown) (err : DashgramError)
    (hcb : cfg.onError = some cb) (hne : events.length ≠ 0)
    (hdis : cfg.disabled = false) (hon : isOnline = true)
    (herr : Transport.sendRequest st fetch = .error err) :
    (Transport.send cfg isOnline events st fetch).callbackCalls = [err] ∧
    (Transport.send cfg isOnline events st fetch).raised = none ∧
    (Transport.send cfg isOnline events st fetch).handlerErrorsLogged
      = (cb err).toList ∧
    err.isTransportTyped = true ∧
    (∀ m, (handleSendFailure (some cb) (.errObj (.plain m))).1 = [.networkError m]) := by
  have htyped := sendRequest_error_typed st fetch err herr
  have hsend : Transport.send cfg isOnline events st fetch =
      { raised := none, requestIssued := true,
        callbackCalls := (handleSendFailure cfg.onError (.errObj (.dashgram err))).1,
        handlerErrorsLogged := (handleSendFailure cfg.onError (.errObj (.dashgram err))).2 } := by
    unfold Transport.send
    rw [if_neg hne, if_neg (by simp [hdis]), if_neg (by simp [hon]), herr]
  have hh : handleSendFailure cfg.onError (.errObj (.dashgram err))
      = ([err], (cb err).toList) := by
    rw [hcb]
    exact handleSendFailure_typed cb err htyped
  refine ⟨?_, ?_, ?_, htyped, ?_⟩
  · rw [hsend, hh]
  · rw [hsend]
  · rw [hsend, hh]
  · intro m
    show (match cb (DashgramError.networkError m) with
          | none => ([DashgramError.networkError m], [])
          | some t => ([DashgramError.networkError m], [t])).1 = _
    cases cb (DashgramError.networkError m) <;> rfl

/-- A user callback that itself throws. -/
def throwingCallback : DashgramError → Option Thrown :=
  fun _ => some (.errObj (.plain "callback boom"))

/-- A transport configuration carrying the throwing callback. -/
def callbackConfig : TransportConfig :=
  { disabled := false, debug := false, onError := some throwingCallback }

/-- A host fetch behaviour that always rejects with a DNS failure. -/
def dnsFailFetch : String → FetchResult :=
  fun _ => .reject (.errObj (.plain "dns failure"))

theorem c5_error_callback_witness :
    (callbackConfig.onError = some throwingCallback ∧
      ([0] : List ℕ).length ≠ 0 ∧ callbackConfig.disabled = false ∧
      Transport.sendRequest none dnsFailFetch = .error (.networkError "dns failure")) ∧
    ((Transport.send callbackConfig true ([0] : List ℕ) none dnsFailFetch).callbackCalls
        = [.networkError "dns failure"] ∧
     (Transport.send callbackConfig true ([0] : List ℕ) none dnsFailFetch).raised = none ∧
     (Transport.send callbackConfig true ([0] : List ℕ) none
        dnsFailFetch).handlerErrorsLogged
        = (throwingCallback (.networkError "dns failure")).toList ∧
     (DashgramError.networkError "dns failure").isTransportTyped = true ∧
     (∀ m, (handleSendFailure (some throwingCallback) (.errObj (.plain m))).1
        = [.networkError m])) :=
  ⟨⟨rfl, by decide, rfl, rfl⟩,
   c5_error_callback callbackConfig true [0] none dnsFailFetch throwingCallback
     (.networkError "dns failure") rfl (by decide) rfl rfl rfl⟩

/-- C6 (amended): a 403 response yields `InvalidCredentialsError`; any
other non-success status yields `DashgramAPIError` carrying that status
and a detail taken from the body's non-empty `details` field, else its
non-empty `message` field, else the status text; a fetch-level failure
is wrapped into `NetworkError` carrying the original cause.  A
body-serialization failure, however, is NOT wrapped into an error: it is
swallowed by `safeStringify` and the request proceeds with the
empty-object payload. -/
theorem c6_request_error_taxonomy (fetch : String → FetchResult) :
    (∀ r : HttpResponse, r.status = 403 →
      sendRequestOutcome (.response r) =
        .error (.invalidCredentials "Invalid projectId or apiKey")) ∧
    (∀ r : HttpResponse, r.status ≠ 403 → r.ok = false →
      sendRequestOutcome (.response r) = .error (.apiError r.status (errorDetails r))) ∧
    (∀ m, sendRequestOutcome (.reject (.errObj (.plain m))) = .error (.networkError m)) ∧
    (∀ s, sendRequestOutcome (.reject (.nonError s)) = .error (.networkError s)) ∧
    (∀ txt m d, d ≠ "" → errorDetails ⟨500, txt, some ⟨some d, m⟩⟩ = d) ∧
    (∀ txt m, m ≠ "" → errorDetails ⟨500, txt, some ⟨none, some m⟩⟩ = m) ∧
    (∀ txt, errorDetails ⟨500, txt, none⟩ = txt) ∧
    (Transport.sendRequest none fetch = Transport.sendRequest (some "\x7b\x7d") fetch) := by
  refine ⟨?_, ?_, fun m => rfl, fun s => rfl, ?_, ?_, fun txt => rfl, rfl⟩
  · intro r h
    simp [sendRequestOutcome, sendRequestTry, h, classifySendError]
  · intro r h403 hok
    simp [sendRequestOutcome, sendRequestTry, h403, hok, classifySendError]
  · intro txt m d hd
    unfold errorDetails jsOrString
    dsimp only
    rw [if_neg hd]
  · intro txt m hm
    unfold errorDetails jsOrString
    dsimp only
    rw [if_neg hm]

theorem c6_request_error_taxonomy_witness :
    sendRequestOutcome (.response ⟨403, "Forbidden", none⟩) =
      .error (.invalidCredentials "Invalid projectId or apiKey") ∧
    sendRequestOutcome (.response ⟨500, "Internal Server Error",
        some ⟨some "db down", none⟩⟩) =
      .error (.apiError 500 "db down") ∧
    sendRequestOutcome (.reject (.errObj (.plain "timeout"))) =
      .error (.networkError "timeout") :=
  ⟨(c6_request_error_taxonomy dnsFailFetch).1 ⟨403, "Forbidden", none⟩ rfl,
   (c6_request_error_taxonomy dnsFailFetch).2.1
     ⟨500, "Internal Server Error", some ⟨some "db down", none⟩⟩
     (by decide) (by decide),
   (c6_request_error_taxonomy dnsFailFetch).2.2.1 "timeout"⟩

/-- C6 counterexample: the claim says body-serialization failure is
wrapped into a `NetworkError`, but in the code `safeStringify` swallows
the failure and substitutes the empty-object payload, so the attempt
proceeds and (here, against a 200 response) succeeds — no `NetworkError`
is ever produced by serialization failure. -/
theorem c6_counterexample :
    Transport.sendRequest none (fun _ => .response ⟨200, "OK", none⟩) = .ok () ∧
    safeStringify none = "\x7b\x7d" :=
  ⟨rfl, rfl⟩

/-! ### Pending request set and `Transport.flush`

```ts
const request = this.sendRequest(events)
this.pendingRequests.add(request)
try { await request } catch (error) { ... }
finally { this.pendingRequests.delete(request) }
...
async flush() { await Promise.all(Array.from(this.pendingRequests)) }
```

The event-loop interleaving is modelled as a trace of atomic steps:
a send passing its guards and registering its request promise
(`startSend`), the host settling that promise — success or failure —
upon which the `finally` deletes it (`settleSend`), a `flush()` call
snapshotting `Array.from(this.pendingRequests)` (`flushCall`), and the
host resolving that `Promise.all`, which by its semantics is enabled
only once every promise in the snapshot has settled (`flushResolve`).
Requests and flush calls are identified by numeric ids; an impossible
step yields `none`.
-/

structure TransportTraceState where
  /-- `this.pendingRequests` -/
  pending : List ℕ
  /-- Ghost log: every request ever started. -/
  started : List ℕ
  /-- Ghost log: every request that has settled. -/
  settled : List ℕ
  /-- Each `flush()` call with the pending snapshot it captured. -/
  snapshots : List (ℕ × List ℕ)
  /-- Flush calls whose `Promise.all` has resolved. -/
  resolvedFlushes : List ℕ
deriving DecidableEq

inductive TransportOp where
  | startSend (n : ℕ)
  | settleSend (n : ℕ) (ok : Bool)
  | flushCall (fid : ℕ)
  | flushResolve (fid : ℕ)
deriving DecidableEq

namespace TransportTrace

def start : TransportTraceState :=
  { pending := [], started := [], settled := [], snapshots := [], resolvedFlushes := [] }

/-- One atomic event-loop step.  `settleSend` deletes from the pending
set unconditionally — the `ok` flag (success vs. failure of the
request) is ignored by the `finally` clause. -/
def step (s : TransportTraceState) : TransportOp → Option TransportTraceState
  | .startSend n =>
    if n ∈ s.started then none
    else some { s with pending := s.pending ++ [n], started := s.started ++ [n] }
  | .settleSend n _ok =>
    if n ∈ s.started ∧ n ∉ s.settled then
      some { s with settled := s.settled ++ [n], pending := s.pending.erase n }
    else none
  | .flushCall fid =>
    if fid ∈ s.snapshots.map Prod.fst then none
    else some { s with snapshots := s.snapshots ++ [(fid, s.pending)] }
  | .flushResolve fid =>
    if fid ∈ s.snapshots.map Prod.fst ∧ fid ∉ s.resolvedFlushes ∧
        (∀ p ∈ s.snapshots, p.1 = fid → ∀ n ∈ p.2, n ∈ s.settled) then
      some { s with resolvedFlushes := s.resolvedFlushes ++ [fid] }
    else none

def runFrom (s : TransportTraceState) : List TransportOp → Option TransportTraceState
  | [] => some s
  | op :: ops =>
    match step s op with
    | none => none
    | some s' => runFrom s' ops

def run (tr : List TransportOp) : Option TransportTraceState :=
  runFrom start tr

/-- The reachable-state invariant: the pending set is duplicate-free and
holds exactly the started-but-unsettled requests; settled requests were
started; resolved flushes have snapshots; and every snapshot of a
resolved flush is fully settled. -/
def Inv (s : TransportTraceState) : Prop :=
  s.pending.Nodup ∧
  (∀ n, n ∈ s.pending ↔ (n ∈ s.started ∧ n ∉ s.settled)) ∧
  (∀ n ∈ s.settled, n ∈ s.started) ∧
  (∀ fid ∈ s.resolvedFlushes, fid ∈ s.snapshots.map Prod.fst) ∧
  (∀ p ∈ s.snapshots, p.1 ∈ s.resolvedFlushes → ∀ n ∈ p.2, n ∈ s.settled)

theorem start_inv : Inv start := by
  refine ⟨List.nodup_nil, ?_, ?_, ?_, ?_⟩ <;> simp [start]

theorem step_inv (s s' : TransportTraceState) (op : TransportOp)
    (hinv : Inv s) (h : step s op = some s') : Inv s' := by
  obtain ⟨hnd, hmem, hss, hrf, hsnap⟩ := hinv
  cases op with
  | startSend n =>
    simp only [step] at h
    by_cases hst : n ∈ s.started
    · rw [if_pos hst] at h; exact absurd h (by simp)
    · rw [if_neg hst] at h
      injection h with h
      subst h
      have hnp : n ∉ s.pending := fun hc => hst ((hmem n).mp hc).1
      have hns : n ∉ s.settled := fun hc => hst (hss n hc)
      refine ⟨?_, ?_, ?_, hrf, hsnap⟩
      · rw [List.nodup_append]
        refine ⟨hnd, List.nodup_singleton n, ?_⟩
        intro a ha hb
        rw [List.mem_singleton.mp hb] at ha
        exact hnp ha
      · intro m
        simp only [List.mem_append, List.mem_singleton]
        constructor
        · rintro (hm | hm)
          · exact ⟨.inl ((hmem m).mp hm).1, ((hmem m).mp hm).2⟩
          · subst hm; exact ⟨.inr rfl, hns⟩
        · rintro ⟨hm | hm, hms⟩
          · exact .inl ((hmem m).mpr ⟨hm, hms⟩)
          · exact .inr hm
      · intro m hm
        exact List.mem_append.mpr (.inl (hss m hm))
  | settleSend n ok =>
    simp only [step] at h
    by_cases hg : n ∈ s.started ∧ n ∉ s.settled
    · rw [if_pos hg] at h
      injection h with h
      subst h
      refine ⟨hnd.erase n, ?_, ?_, hrf, ?_⟩
      · intro m
        rw [hnd.mem_erase_iff]
        simp only [List.mem_append, List.mem_singleton]
        constructor
        · rintro ⟨hmn, hm⟩
          exact ⟨((hmem m).mp hm).1, by
            rintro (hc | hc)
            · exact ((hmem m).mp hm).2 hc
            · exact hmn hc⟩
        · rintro ⟨hm, hms⟩
          refine ⟨fun hc => hms (by rw [hc]; exact .inr rfl), ?_⟩
          exact (hmem m).mpr ⟨hm, fun hc => hms (.inl hc)⟩
      · intro m hm
        rcases List.mem_append.mp hm with hm | hm
        · exact hss m hm
        · rw [List.mem_singleton.mp hm]; exact hg.1
      · intro p hp hpr m hm
        exact List.mem_append.mpr (.inl (hsnap p hp hpr m hm))
    · rw [if_neg hg] at h; exact absurd h (by simp)
  | flushCall fid =>
    simp only [step] at h
    by_cases hg : fid ∈ s.snapshots.map Prod.fst
    · rw [if_pos hg] at h; exact absurd h (by simp)
    · rw [if_neg hg] at h
      injection h with h
      subst h
      refine ⟨hnd, hmem, hss, ?_, ?_⟩
      · intro g hgr
        rw [List.map_append]
        exact List.mem_append.mpr (.inl (hrf g hgr))
      · intro p hp hpr
        rcases List.mem_append.mp hp with hp | hp
        · exact hsnap p hp hpr
        · exfalso
          rw [List.mem_singleton.mp hp] at hpr
          exact hg (hrf fid hpr)
  | flushResolve fid =>
    simp only [step] at h
    by_cases hg : fid ∈ s.snapshots.map Prod.fst ∧ fid ∉ s.resolvedFlushes ∧
        (∀ p ∈ s.snapshots, p.1 = fid → ∀ n ∈ p.2, n ∈ s.settled)
    · rw [if_pos hg] at h
      injection h with h
      subst h
      refine ⟨hnd, hmem, hss, ?_, ?_⟩
      · intro g hgr
        rcases List.mem_append.mp hgr with hgr | hgr
        · exact hrf g hgr
        · rw [List.mem_singleton.mp hgr]; exact hg.1
      · intro p hp hpr m hm
        rcases List.mem_append.mp hpr with hpr | hpr
        · exact hsnap p hp hpr m hm
        · exact hg.2.2 p hp (List.mem_singleton.mp hpr) m hm
    · rw [if_neg hg] at h; exact absurd h (by simp)

theorem runFrom_inv (tr : List TransportOp) :
    ∀ s s' : TransportTraceState, Inv s → runFrom s tr = some s' → Inv s' := by
  induction tr with
  | nil =>
    intro s s' hinv h
    unfold runFrom at h
    injection h with h
    subst h
    exact hinv
  | cons op ops ih =>
    intro s s' hinv h
    unfold runFrom at h
    cases hstep : step s op with
    | none => rw [hstep] at h; exact absurd h (by simp)
    | some s₁ =>
      rw [hstep] at h
      exact ih s₁ s' (step_inv s s₁ op hinv hstep) h

end TransportTrace

/-- C8: in every reachable state, the pending request set holds a
request exactly from the start of its attempt until it settles (and the
`finally`-removal is the same for success and failure); and a resolved
`Transport.flush()` implies that every request in the pending snapshot
it captured at call time has settled. -/
theorem c8_pending_set_contract (tr : List TransportOp) (s : TransportTraceState)
    (h : TransportTrace.run tr = some s) :
    (∀ n, n ∈ s.pending ↔ (n ∈ s.started ∧ n ∉ s.settled)) ∧
    (∀ p ∈ s.snapshots, p.1 ∈ s.resolvedFlushes → ∀ n ∈ p.2, n ∈ s.settled) ∧
    (∀ (s₀ : TransportTraceState) (n : ℕ),
      TransportTrace.step s₀ (.settleSend n true)
        = TransportTrace.step s₀ (.settleSend n false)) := by
  have hinv := TransportTrace.runFrom_inv tr TransportTrace.start s
    TransportTrace.start_inv h
  exact ⟨hinv.2.1, hinv.2.2.2.2, fun s₀ n => rfl⟩

/-- A concrete interleaving: two sends start, a flush snapshots both,
both settle (one success, one failure), the flush resolves, and a third
send starts afterwards. -/
def c8trace : List TransportOp :=
  [.startSend 0, .startSend 1, .flushCall 0, .settleSend 0 true,
   .settleSend 1 false, .flushResolve 0, .startSend 2]

def c8end : TransportTraceState :=
  { pending := [2], started := [0, 1, 2], settled := [0, 1],
    snapshots := [(0, [0, 1])], resolvedFlushes := [0] }

theorem c8_pending_set_contract_witness :
    TransportTrace.run c8trace = some c8end ∧
    ((∀ n, n ∈ c8end.pending ↔ (n ∈ c8end.started ∧ n ∉ c8end.settled)) ∧
     (∀ p ∈ c8end.snapshots, p.1 ∈ c8end.resolvedFlushes →
        ∀ n ∈ p.2, n ∈ c8end.settled) ∧
     (∀ (s₀ : TransportTraceState) (n : ℕ),
       TransportTrace.step s₀ (.settleSend n true)
         = TransportTrace.step s₀ (.settleSend n false))) :=
  ⟨by decide, c8_pending_set_contract c8trace c8end (by decide)⟩

/-! ### SDK facade (`src/index.ts`, `src/core/config.ts`) -/

/-- The user-supplied `DashgramConfig` slice the core consults.  Absent
optional fields are `none`; the required string credentials use `""`
for the absent/falsy case. -/
structure UserConfig where
  projectId : String
  apiKey : String
  trackLevel : Option ℕ
  batchSize : Option ℕ
  flushInterval : Option ℕ
  debug : Option Bool
  disabled : Option Bool
deriving DecidableEq

/-- The resolved configuration record held by `Config`. -/
structure ConfigData where
  projectId : String
  apiKey : String
  trackLevel : ℕ
  batchSize : ℕ
  flushInterval : ℕ
  debug : Bool
  disabled : Bool
deriving DecidableEq

/-- `new Config(userConfig)`: merge `DEFAULT_CONFIG` under the user
config, then `validate()`, which throws `DashgramConfigurationError` on
a missing `projectId`/`apiKey` or an out-of-range `trackLevel`. -/
def Config.construct (u : UserConfig) : Except DashgramError ConfigData :=
  let c : ConfigData :=
    { projectId := u.projectId, apiKey := u.apiKey,
      trackLevel := u.trackLevel.getD 1,
      batchSize := u.batchSize.getD 10,
      flushInterval := u.flushInterval.getD 5000,
      debug := u.debug.getD false,
      disabled := u.disabled.getD false }
  if c.projectId = "" then .error (.configurationError "projectId is required")
  else if c.apiKey = "" then .error (.configurationError "apiKey is required")
  else if c.trackLevel ≠ 1 ∧ c.trackLevel ≠ 2 ∧ c.trackLevel ≠ 3 then
    .error (.configurationError "trackLevel must be 1, 2, or 3")
  else .ok c

/-- The facade's mutable state: the initialization flag, the resolved
config, and the batch processor (with its queue).  Events are opaque
(`α`); building one merges timestamps/session/context supplied by the
host environment. -/
structure SDKState (α : Type) where
  isInitialized : Bool
  config : Option ConfigData
  processor : Option (BatchProcessor α)

namespace DashgramSDK

/-- `ensureInitialized()`: throws a plain `Error` — note: not one of the
SDK's typed errors — when the SDK has not been initialized. -/
def ensureInitialized {α : Type} (s : SDKState α) : Except Thrown Unit :=
  if s.isInitialized then .ok ()
  else .error (.errObj (.plain "Dashgram: SDK not initialized. Call init() first."))

/-- `track(event, properties)`: ensure initialized, build the full event
(the built record arrives as `builtEvent`), and hand it to
`batchProcessor.addEvent`.  The `batchProcessor!` non-null assertion on
a null processor surfaces as a host `TypeError`. -/
def track {α : Type} (s : SDKState α) (builtEvent : α) :
    Except Thrown (SDKState α) :=
  match ensureInitialized s with
  | .error t => .error t
  | .ok () =>
    match s.processor with
    | some p => .ok { s with processor := some (p.addEvent builtEvent) }
    | none => .error (.errObj (.plain "TypeError: batchProcessor is null"))

/-- `init(userConfig)`: warn-and-return when already initialized or
outside a browser; otherwise construct the components (a config
validation failure is logged and re-thrown) and start the pipeline. -/
def init {α : Type} (isBrowserEnv : Bool) (s : SDKState α) (u : UserConfig) :
    Except Thrown (SDKState α) :=
  if s.isInitialized then .ok s
  else if isBrowserEnv = false then .ok s
  else
    match Config.construct u with
    | .error e => .error (.errObj (.dashgram e))
    | .ok c =>
      .ok { isInitialized := true, config := some c,
            processor := some (BatchProcessor.init α c.batchSize) }

end DashgramSDK

/-- C9: a tracking call made before initialization is rejected without
enqueuing anything (`track` returns an error and produces no new state)
— but the thrown value is a plain `Error` with message "Dashgram: SDK
not initialized. Call init() first.", not the SDK's typed
`DashgramConfigurationError` (whose own doc comment in `src/errors.ts`
names exactly this "not initialized" case). -/
theorem c9_track_before_init {α : Type} (s : SDKState α) (e : α)
    (h : s.isInitialized = false) :
    DashgramSDK.track s e =
      .error (.errObj (.plain "Dashgram: SDK not initialized. Call init() first.")) ∧
    (∀ d : DashgramError,
      DashgramSDK.track s e ≠ .error (.errObj (.dashgram d))) := by
  have hens : DashgramSDK.ensureInitialized s =
      .error (.errObj (.plain "Dashgram: SDK not initialized. Call init() first.")) := by
    unfold DashgramSDK.ensureInitialized
    rw [if_neg (by simp [h])]
  constructor
  · unfold DashgramSDK.track
    rw [hens]
  · intro d
    unfold DashgramSDK.track
    rw [hens]
    simp

theorem c9_track_before_init_witness :
    (SDKState.isInitialized (α := ℕ) ⟨false, none, none⟩ = false) ∧
    (DashgramSDK.track (⟨false, none, none⟩ : SDKState ℕ) 42 =
      .error (.errObj (.plain "Dashgram: SDK not initialized. Call init() first.")) ∧
     (∀ d : DashgramError,
       DashgramSDK.track (⟨false, none, none⟩ : SDKState ℕ) 42 ≠
         .error (.errObj (.dashgram d)))) :=
  ⟨rfl, c9_track_before_init (⟨false, none, none⟩ : SDKState ℕ) 42 rfl⟩

/-- C10: calling `init` when the SDK is already initialized is a no-op:
it returns without raising, the new configuration is entirely ignored
(the result is `.ok s` for every `u`), and all existing state — config,
queue contents, processor — is returned unchanged. -/
theorem c10_reinit_noop {α : Type} (env : Bool) (s : SDKState α) (u : UserConfig)
    (h : s.isInitialized = true) :
    DashgramSDK.init env s u = .ok s := by
  unfold DashgramSDK.init
  rw [if_pos h]

/-- An initialized state with a queued record, for the C10 witness. -/
def c10state : SDKState ℕ :=
  { isInitialized := true,
    config := some { projectId := "p", apiKey := "k", trackLevel := 1,
                     batchSize := 10, flushInterval := 5000,
                     debug := false, disabled := false },
    processor := some ((BatchProcessor.init ℕ 10).addEvent 5) }

theorem c10_reinit_noop_witness :
    c10state.isInitialized = true ∧
    DashgramSDK.init true c10state
      { projectId := "other", apiKey := "other", trackLevel := some 3,
        batchSize := some 1, flushInterval := some 1, debug := some true,
        disabled := some true } = .ok c10state :=
  ⟨rfl, c10_reinit_noop true c10state _ rfl⟩

set_option maxRecDepth 20000 in
/-- C7 counterexample: the claim as stated fails when the configured
`batchSize` exceeds the hard-coded queue capacity 200 (the config layer
accepts such a value): with `batchSize = 201`, calling `addEvent`
exactly 201 times triggers no flush at all — nothing is ever handed to
the transport, instead of "exactly one eager flush". -/
theorem c7_counterexample :
    (List.range 201).length = 201 ∧
    ((BatchProcessor.init ℕ 201).addAll (List.range 201)).sent = [] := by
  constructor
  · simp
  · decide

end Dashgram
